import Mathlib

/-!
Verification of the adversarial training loop of `main.py` (DCGAN / SAGAN
trainer).  The per-batch update protocol (lines 122-187 of the source) is
embedded shallowly:

* autograd is modelled by an explicit expression graph (`Exp`); a backward
  pass accumulates a contribution onto the gradient buffer of a network's
  parameters exactly when the loss expression reaches those parameters
  without crossing a `detach` node (`touchesD` / `touchesG`);
* the numeric losses are modelled over `ℝ`, with the discriminator scores of
  each forward pass supplied as inputs (the networks themselves are opaque
  differentiable functions, per the surrounding code);
* optimizer steps, backward calls, forward passes, `torch.randn` draws,
  `vutils.save_image` calls and the per-batch log line are recorded as
  explicit events in the loop state, mirroring the source line by line.
-/

/-- Symbolic autograd graph.  Leaves are the real batch (`realData`), the
per-batch noise draw (`noise`) and the process-wide fixed noise
(`fixedNoise`); `applyD` / `applyG` are forward passes of the discriminator
and generator; `detach` severs gradient flow; the remaining constructors are
the loss heads appearing in the source (`hingeR` for `ReLU()(1.0 - out).mean()`,
`hingeF` for `ReLU()(1.0 + out).mean()`, `bce` for `criterion(out, label)`,
`negMean` for `- out.mean()`, `add` for `errD_real + errD_fake`). -/
inductive Exp : Type where
  | realData : Nat → Nat → Exp
  | fixedNoise : Exp
  | noise : Nat → Nat → Exp
  | applyD : Exp → Exp
  | applyG : Exp → Exp
  | detach : Exp → Exp
  | slice : Nat → Exp → Exp
  | hingeR : Exp → Exp
  | hingeF : Exp → Exp
  | bce : Exp → Exp
  | negMean : Exp → Exp
  | add : Exp → Exp → Exp
deriving DecidableEq, Repr

/-- Does a backward pass started at this expression reach the discriminator's
parameters?  Recursion stops at `detach` (autograd does not cross a detached
tensor); any `applyD` node reached contributes to the discriminator. -/
def touchesD : Exp → Bool
  | Exp.realData _ _ => false
  | Exp.fixedNoise => false
  | Exp.noise _ _ => false
  | Exp.applyD _ => true
  | Exp.applyG z => touchesD z
  | Exp.detach _ => false
  | Exp.slice _ x => touchesD x
  | Exp.hingeR x => touchesD x
  | Exp.hingeF x => touchesD x
  | Exp.bce x => touchesD x
  | Exp.negMean x => touchesD x
  | Exp.add x y => touchesD x || touchesD y

/-- Does a backward pass started at this expression reach the generator's
parameters?  Recursion stops at `detach`; any `applyG` node reached
contributes to the generator. -/
def touchesG : Exp → Bool
  | Exp.realData _ _ => false
  | Exp.fixedNoise => false
  | Exp.noise _ _ => false
  | Exp.applyD x => touchesG x
  | Exp.applyG _ => true
  | Exp.detach _ => false
  | Exp.slice _ x => touchesG x
  | Exp.hingeR x => touchesG x
  | Exp.hingeF x => touchesG x
  | Exp.bce x => touchesG x
  | Exp.negMean x => touchesG x
  | Exp.add x y => touchesG x || touchesG y

/-- Which of the two `vutils.save_image` call sites produced a save event. -/
inductive SaveKind : Type where
  | realGrid : SaveKind
  | fakeGrid : SaveKind
deriving DecidableEq, Repr

/-- One `vutils.save_image(...)` call: target file, saved tensor (as a graph
expression) and the `normalize=` flag. -/
structure SaveEvent : Type where
  file : String
  src : Exp
  normalize : Bool
  kind : SaveKind
deriving DecidableEq, Repr

/-- One `logging.info('[%d/%d][%d/%d] ...')` line of the loop body. -/
structure LogLine : Type where
  epoch : Nat
  niter : Nat
  batch : Nat
  nbatches : Nat
  Loss_D : ℝ
  Loss_G : ℝ
  D_x : ℝ
  D_G_z1 : ℝ
  D_G_z2 : ℝ

/-- The decimal digit characters of `n`, most significant first. -/
def decChars (n : Nat) : List Char :=
  ((Nat.digits 10 n).reverse).map (fun d => Char.ofNat (48 + d))

/-- Zero-pad the decimal rendering of `n` to at least three characters,
the semantics of the `%03d` format used for checkpoint/sample filenames. -/
def pad3Chars (n : Nat) : List Char :=
  List.replicate (3 - (decChars n).length) '0' ++ decChars n

/-- String form of `%03d % n`. -/
def pad3 (n : Nat) : String :=
  ⟨pad3Chars n⟩

/-- Target file of the real-image grid: `'%s/real_samples.png' % opt.outf`. -/
def real_samples_file (outf : String) : String :=
  outf ++ "/real_samples.png"

/-- Target file of the generated grid:
`'%s/fake_samples_epoch_%03d.png' % (opt.outf, epoch)`. -/
def fake_samples_file (outf : String) (epoch : Nat) : String :=
  outf ++ "/fake_samples_epoch_" ++ pad3 epoch ++ ".png"

/-- The save event of `vutils.save_image(real_cpu[:64], ..., normalize=True)`. -/
def realSaveEv (outf : String) (epoch i : Nat) : SaveEvent :=
  ⟨real_samples_file outf, Exp.slice 64 (Exp.realData epoch i), true, SaveKind.realGrid⟩

/-- The save event of
`vutils.save_image(fake.detach(), ..., normalize=True)` with `fake = netG(fixed_noise)`. -/
def fakeSaveEv (outf : String) (epoch : Nat) : SaveEvent :=
  ⟨fake_samples_file outf epoch, Exp.detach (Exp.applyG Exp.fixedNoise), true, SaveKind.fakeGrid⟩

/-- `real_label = 1`. -/
noncomputable def real_label : ℝ := 1

/-- `fake_label = 0`. -/
noncomputable def fake_label : ℝ := 0

/-- Mean of a list of reals, the semantics of `.mean()` on a 1-d tensor. -/
noncomputable def mean (l : List ℝ) : ℝ := l.sum / l.length

/-- `nn.ReLU()` applied to one scalar. -/
noncomputable def relu (x : ℝ) : ℝ := max 0 x

/-- One summand of `nn.BCEWithLogitsLoss()`: PyTorch's documented numerically
stable (log-sum-exp) formulation of binary cross entropy on a raw logit `x`
with target `y`. -/
noncomputable def bceWithLogitsTerm (x y : ℝ) : ℝ :=
  max x 0 - x * y + Real.log (1 + Real.exp (-|x|))

/-- `criterion = nn.BCEWithLogitsLoss()` (mean reduction, the default). -/
noncomputable def criterion (scores targets : List ℝ) : ℝ :=
  mean (List.zipWith bceWithLogitsTerm scores targets)

/-- `nn.ReLU()(1.0 - output).mean()`, the sagan-branch `errD_real`. -/
noncomputable def hinge_errD_real (scores : List ℝ) : ℝ :=
  mean (scores.map fun s => relu (1 - s))

/-- `nn.ReLU()(1.0 + output).mean()`, the sagan-branch `errD_fake`. -/
noncomputable def hinge_errD_fake (scores : List ℝ) : ℝ :=
  mean (scores.map fun s => relu (1 + s))

/-- `torch.where(output > 0.5, 1., 0.).mean().item()`, the accuracy proxy. -/
noncomputable def threshMean (scores : List ℝ) : ℝ :=
  mean (scores.map fun s => if (0.5 : ℝ) < s then (1 : ℝ) else 0)

/-- Graph node of the batch's `errD_real` loss. -/
def errD_real_node (sagan : Bool) (epoch i : Nat) : Exp :=
  if sagan then Exp.hingeR (Exp.applyD (Exp.realData epoch i))
  else Exp.bce (Exp.applyD (Exp.realData epoch i))

/-- Graph node of the batch's `errD_fake` loss (the generator output is
scored through `fake.detach()`). -/
def errD_fake_node (sagan : Bool) (epoch i : Nat) : Exp :=
  if sagan then Exp.hingeF (Exp.applyD (Exp.detach (Exp.applyG (Exp.noise epoch i))))
  else Exp.bce (Exp.applyD (Exp.detach (Exp.applyG (Exp.noise epoch i))))

/-- Graph node of the batch's `errG` loss, scoring a (non-detached) tensor
`fke` through the discriminator. -/
def errG_node (sagan : Bool) (fke : Exp) : Exp :=
  if sagan then Exp.negMean (Exp.applyD fke) else Exp.bce (Exp.applyD fke)

/-- State of the training loop.  `label` is the (mutable) label tensor;
`gradD` / `gradG` are the parameter-gradient buffers of the two networks,
holding the list of loss expressions whose backward passes have accumulated
into them since the last `zero_grad()`; `stepsD` / `stepsG` record each
optimizer step together with the gradient buffer it consumed; `dForward` /
`gForward` record the inputs of every discriminator / generator forward
pass; `draws` records every `torch.randn` call; `backwards` records every
`.backward()` call; `saves` and `logLines` record the emitted artifacts.
The remaining fields are the Python locals of the loop body. -/
structure GanState : Type where
  label : List ℝ
  gradD : List Exp
  gradG : List Exp
  stepsD : List (List Exp)
  stepsG : List (List Exp)
  dForward : List Exp
  gForward : List Exp
  draws : List Exp
  backwards : List Exp
  saves : List SaveEvent
  logLines : List LogLine
  errD_real : ℝ
  errD_fake : ℝ
  errD : ℝ
  errG : ℝ
  D_x : ℝ
  D_G_z1 : ℝ
  D_G_z2 : ℝ
  errD_real_nd : Exp
  errD_fake_nd : Exp
  errD_nd : Exp
  errG_nd : Exp
  fake : Exp

/-- `loss.backward()`: append the loss expression to the gradient buffer of
every network whose parameters it reaches (accumulation, not overwrite), and
record the call. -/
def backwardPass (node : Exp) (st : GanState) : GanState :=
  { st with
    gradD := if touchesD node then st.gradD ++ [node] else st.gradD
    gradG := if touchesG node then st.gradG ++ [node] else st.gradG
    backwards := st.backwards ++ [node] }

/-- Lines 128-141: `netD.zero_grad()`; `label = torch.full((batch_size,),
real_label, ...)`; `output = netD(real_cpu)`; `errD_real` (hinge or
`criterion(output, label)`); `errD_real.backward()`; `D_x`.
`sReal` is the list of per-sample scores of this forward pass. -/
noncomputable def discRealPhase (sagan : Bool) (rl : ℝ) (epoch i : Nat)
    (sReal : List ℝ) (st : GanState) : GanState :=
  let st1 := { st with gradD := ([] : List Exp) }
  let st2 := { st1 with label := List.replicate sReal.length rl }
  let st3 := { st2 with dForward := st2.dForward ++ [Exp.realData epoch i] }
  let v := if sagan then hinge_errD_real sReal else criterion sReal st2.label
  let node := errD_real_node sagan epoch i
  let st4 := backwardPass node st3
  { st4 with errD_real := v, errD_real_nd := node, D_x := threshMean sReal }

/-- Lines 143-156: `noise = torch.randn(...)`; `fake = netG(noise)`;
`label.fill_(fake_label)`; `output = netD(fake.detach())`; `errD_fake`
(hinge or `criterion(output, label)`); `errD_fake.backward()`; `D_G_z1`.
`sFake1` is the list of per-sample scores of this forward pass. -/
noncomputable def discFakePhase (sagan : Bool) (fl : ℝ) (epoch i : Nat)
    (sFake1 : List ℝ) (st : GanState) : GanState :=
  let st1 := { st with draws := st.draws ++ [Exp.noise epoch i] }
  let fke := Exp.applyG (Exp.noise epoch i)
  let st2 := { st1 with gForward := st1.gForward ++ [Exp.noise epoch i], fake := fke }
  let st3 := { st2 with label := st2.label.map fun _ => fl }
  let st4 := { st3 with dForward := st3.dForward ++ [Exp.detach fke] }
  let v := if sagan then hinge_errD_fake sFake1 else criterion sFake1 st3.label
  let node := errD_fake_node sagan epoch i
  let st5 := backwardPass node st4
  { st5 with errD_fake := v, errD_fake_nd := node, D_G_z1 := threshMean sFake1 }

/-- Lines 157-158: `errD = errD_real + errD_fake`; `optimizerD.step()` (the
step consumes the current discriminator gradient buffer). -/
noncomputable def discCommit (st : GanState) : GanState :=
  let st1 := { st with errD := st.errD_real + st.errD_fake,
                       errD_nd := Exp.add st.errD_real_nd st.errD_fake_nd }
  { st1 with stepsD := st1.stepsD ++ [st1.gradD] }

/-- Lines 163-173: `netG.zero_grad()`; `label.fill_(real_label)`;
`output = netD(fake)` (the same `fake`, not detached); `errG` (hinge or
`criterion(output, label)`); `errG.backward()`; `D_G_z2`;
`optimizerG.step()`.  `sFake2` is the list of per-sample scores of this
forward pass (the discriminator was just updated, so they are fresh inputs). -/
noncomputable def genPhase (sagan : Bool) (rl : ℝ) (sFake2 : List ℝ)
    (st : GanState) : GanState :=
  let st1 := { st with gradG := ([] : List Exp) }
  let st2 := { st1 with label := st1.label.map fun _ => rl }
  let st3 := { st2 with dForward := st2.dForward ++ [st2.fake] }
  let v := if sagan then -(mean sFake2) else criterion sFake2 st2.label
  let node := errG_node sagan st2.fake
  let st4 := backwardPass node st3
  let st5 := { st4 with errG := v, errG_nd := node, D_G_z2 := threshMean sFake2 }
  { st5 with stepsG := st5.stepsG ++ [st5.gradG] }

/-- Lines 175-183: the per-batch log line, and every 100 batches the two
`vutils.save_image` calls (the second of which recomputes
`fake = netG(fixed_noise)`). -/
noncomputable def logAndSnapshot (epoch i nit nB : Nat) (outf : String)
    (st : GanState) : GanState :=
  let st1 := { st with logLines := st.logLines ++
    [⟨epoch, nit, i, nB, st.errD, st.errG, st.D_x, st.D_G_z1, st.D_G_z2⟩] }
  if i % 100 = 0 then
    let st2 := { st1 with saves := st1.saves ++ [realSaveEv outf epoch i] }
    let fke := Exp.applyG Exp.fixedNoise
    let st3 := { st2 with gForward := st2.gForward ++ [Exp.fixedNoise], fake := fke }
    { st3 with saves := st3.saves ++ [fakeSaveEv outf epoch] }
  else st1

/-- One iteration of the inner loop (lines 124-183), for batch `i` of epoch
`epoch`.  `sReal`, `sFake1`, `sFake2` are the score lists of the three
discriminator forward passes of this batch. -/
noncomputable def batchStep (sagan : Bool) (rl fl : ℝ) (epoch i nit nB : Nat)
    (outf : String) (sReal sFake1 sFake2 : List ℝ) (st : GanState) : GanState :=
  logAndSnapshot epoch i nit nB outf
    (genPhase sagan rl sFake2
      (discCommit
        (discFakePhase sagan fl epoch i sFake1
          (discRealPhase sagan rl epoch i sReal st))))

/-- State before the loop starts: `fixed_noise = torch.randn(64, nz, 1, 1)`
has been drawn (line 114) and nothing else has happened. -/
noncomputable def initState : GanState :=
  { label := [], gradD := [], gradG := [], stepsD := [], stepsG := [],
    dForward := [], gForward := [], draws := [Exp.fixedNoise],
    backwards := [], saves := [], logLines := [],
    errD_real := 0, errD_fake := 0, errD := 0, errG := 0,
    D_x := 0, D_G_z1 := 0, D_G_z2 := 0,
    errD_real_nd := Exp.fixedNoise, errD_fake_nd := Exp.fixedNoise,
    errD_nd := Exp.fixedNoise, errG_nd := Exp.fixedNoise,
    fake := Exp.fixedNoise }

/-- One epoch: `for i, data in enumerate(dataloader, 0)` with `nB` batches.
`o epoch i` supplies the three score lists of batch `i`. -/
noncomputable def epochStep (sagan : Bool) (rl fl : ℝ) (nit nB : Nat)
    (outf : String) (o : Nat → Nat → List ℝ × List ℝ × List ℝ)
    (epoch : Nat) (st : GanState) : GanState :=
  (List.range nB).foldl
    (fun s i => batchStep sagan rl fl epoch i nit nB outf
      (o epoch i).1 (o epoch i).2.1 (o epoch i).2.2 s) st

/-- The whole training loop: `for epoch in range(opt.niter)`. -/
noncomputable def runLoop (sagan : Bool) (rl fl : ℝ) (nit nB : Nat)
    (outf : String) (o : Nat → Nat → List ℝ × List ℝ × List ℝ) : GanState :=
  (List.range nit).foldl
    (fun s e => epochStep sagan rl fl nit nB outf o e s) initState

/-- Modelled from the spec: hinge-variant discriminator real loss
`mean(relu(1 − D(real)))`, for comparison with the loop's computation. -/
noncomputable def specHingeRealLoss (scores : List ℝ) : ℝ :=
  mean (scores.map fun s => relu (1 - s))

/-- Modelled from the spec: hinge-variant discriminator fake loss
`mean(relu(1 + D(fake_detached)))`. -/
noncomputable def specHingeFakeLoss (scores : List ℝ) : ℝ :=
  mean (scores.map fun s => relu (1 + s))

/-- Modelled from the spec: hinge-variant generator loss `−mean(D(fake))`. -/
noncomputable def specHingeGenLoss (scores : List ℝ) : ℝ :=
  -(mean scores)

/-- The logistic sigmoid. -/
noncomputable def sigmoid (x : ℝ) : ℝ := 1 / (1 + Real.exp (-x))

/-- Modelled from the spec: textbook binary cross entropy of a raw
(pre-sigmoid) score `s` against target `y`,
`−[y·log σ(s) + (1−y)·log(1−σ(s))]`. -/
noncomputable def bceSpec (s y : ℝ) : ℝ :=
  -(y * Real.log (sigmoid s) + (1 - y) * Real.log (1 - sigmoid s))

/-- Modelled from the spec: mean binary cross entropy of a list of raw scores
against a constant target `y`. -/
noncomputable def specBCELoss (scores : List ℝ) (y : ℝ) : ℝ :=
  mean (scores.map fun s => bceSpec s y)

/-- Everything observable about a loop state except the contents of the
label tensor: gradients, optimizer steps, forward/backward/draw traces,
artifacts, log lines, all loss and accuracy-proxy values, and the loss
graph nodes. -/
def observables (st : GanState) :=
  (st.gradD, st.gradG, st.stepsD, st.stepsG, st.dForward, st.gForward,
   st.draws, st.backwards, st.saves, st.logLines,
   st.errD_real, st.errD_fake, st.errD, st.errG,
   st.D_x, st.D_G_z1, st.D_G_z2,
   st.errD_real_nd, st.errD_fake_nd, st.errD_nd, st.errG_nd, st.fake)

/-- The save events produced by the snapshot branch over a list of batch
indices of one epoch (closed form used to reason about the loop's fold). -/
def snapSaves (outf : String) (epoch : Nat) : List Nat → List SaveEvent
  | [] => []
  | i :: is =>
      (if i % 100 = 0 then [realSaveEv outf epoch i, fakeSaveEv outf epoch] else [])
        ++ snapSaves outf epoch is

/-- The score oracle returning empty batches (used for concrete runs where
only the event traces matter). -/
noncomputable def orcZero : Nat → Nat → List ℝ × List ℝ × List ℝ :=
  fun _ _ => (([] : List ℝ), ([] : List ℝ), ([] : List ℝ))

/-- Decode a zero-padded decimal character rendering back to the number. -/
def decodeChars (cs : List Char) : Nat :=
  Nat.ofDigits 10 ((cs.map fun c => c.toNat - 48).reverse)

/-- The value assigned to `errD_real` (line 137 / 139): hinge branch or
`criterion(output, label)` with the freshly filled real-label tensor. -/
noncomputable def errD_realVal (sagan : Bool) (rl : ℝ) (sR : List ℝ) : ℝ :=
  if sagan then hinge_errD_real sR else criterion sR (List.replicate sR.length rl)

/-- The value assigned to `errD_fake` (line 152 / 154), with the label
tensor refilled to the fake label (its length `n` is the batch size). -/
noncomputable def errD_fakeVal (sagan : Bool) (fl : ℝ) (n : Nat) (s1 : List ℝ) : ℝ :=
  if sagan then hinge_errD_fake s1 else criterion s1 (List.replicate n fl)

/-- The value assigned to `errG` (line 168 / 170), with the label tensor
refilled to the real label. -/
noncomputable def errGVal (sagan : Bool) (rl : ℝ) (n : Nat) (s2 : List ℝ) : ℝ :=
  if sagan then -(mean s2) else criterion s2 (List.replicate n rl)

/-- The save events of a whole run, epoch by epoch (closed form used to
reason about the outer fold). -/
def runSaves (outf : String) (nB : Nat) : List Nat → List SaveEvent
  | [] => []
  | e :: es => snapSaves outf e (List.range nB) ++ runSaves outf nB es


theorem discRealPhase_eq (sagan : Bool) (rl : ℝ) (e i : Nat) (sR : List ℝ) (st : GanState) :
    discRealPhase sagan rl e i sR st =
      { st with
        gradD := [errD_real_node sagan e i],
        label := List.replicate sR.length rl,
        dForward := st.dForward ++ [Exp.realData e i],
        backwards := st.backwards ++ [errD_real_node sagan e i],
        errD_real := errD_realVal sagan rl sR,
        errD_real_nd := errD_real_node sagan e i,
        D_x := threshMean sR } := by
  cases sagan <;> rfl

theorem discFakePhase_eq (sagan : Bool) (fl : ℝ) (e i : Nat) (s1 : List ℝ) (st : GanState) :
    discFakePhase sagan fl e i s1 st =
      { st with
        draws := st.draws ++ [Exp.noise e i],
        gForward := st.gForward ++ [Exp.noise e i],
        fake := Exp.applyG (Exp.noise e i),
        label := st.label.map fun _ => fl,
        dForward := st.dForward ++ [Exp.detach (Exp.applyG (Exp.noise e i))],
        gradD := st.gradD ++ [errD_fake_node sagan e i],
        backwards := st.backwards ++ [errD_fake_node sagan e i],
        errD_fake := errD_fakeVal sagan fl st.label.length s1,
        errD_fake_nd := errD_fake_node sagan e i,
        D_G_z1 := threshMean s1 } := by
  cases sagan <;> simp [discFakePhase, backwardPass, errD_fake_node, errD_fakeVal,
    touchesD, touchesG, hinge_errD_fake, criterion]

theorem discCommit_eq (st : GanState) :
    discCommit st =
      { st with errD := st.errD_real + st.errD_fake,
                errD_nd := Exp.add st.errD_real_nd st.errD_fake_nd,
                stepsD := st.stepsD ++ [st.gradD] } := rfl

theorem genPhase_eq (sagan : Bool) (rl : ℝ) (s2 : List ℝ) (st : GanState) :
    genPhase sagan rl s2 st =
      { st with
        gradG := if touchesG st.fake then [errG_node sagan st.fake] else [],
        label := st.label.map fun _ => rl,
        dForward := st.dForward ++ [st.fake],
        gradD := st.gradD ++ [errG_node sagan st.fake],
        backwards := st.backwards ++ [errG_node sagan st.fake],
        errG := errGVal sagan rl st.label.length s2,
        errG_nd := errG_node sagan st.fake,
        D_G_z2 := threshMean s2,
        stepsG := st.stepsG ++ [if touchesG st.fake then [errG_node sagan st.fake] else []] } := by
  cases sagan <;> simp [genPhase, backwardPass, errG_node, errGVal, touchesD, touchesG, criterion]

theorem logAndSnapshot_eq (e i nit nB : Nat) (outf : String) (st : GanState) :
    logAndSnapshot e i nit nB outf st =
      if i % 100 = 0 then
        { st with
          logLines := st.logLines ++
            [⟨e, nit, i, nB, st.errD, st.errG, st.D_x, st.D_G_z1, st.D_G_z2⟩],
          saves := st.saves ++ [realSaveEv outf e i, fakeSaveEv outf e],
          gForward := st.gForward ++ [Exp.fixedNoise],
          fake := Exp.applyG Exp.fixedNoise }
      else
        { st with
          logLines := st.logLines ++
            [⟨e, nit, i, nB, st.errD, st.errG, st.D_x, st.D_G_z1, st.D_G_z2⟩] } := by
  by_cases h : i % 100 = 0 <;> simp [logAndSnapshot, h]

theorem batchStep_eq (sagan : Bool) (rl fl : ℝ) (e i nit nB : Nat) (outf : String)
    (sR s1 s2 : List ℝ) (st : GanState) :
    batchStep sagan rl fl e i nit nB outf sR s1 s2 st =
      (if i % 100 = 0 then
        { st with
          label := List.replicate sR.length rl,
          gradD := [errD_real_node sagan e i, errD_fake_node sagan e i,
                    errG_node sagan (Exp.applyG (Exp.noise e i))],
          gradG := [errG_node sagan (Exp.applyG (Exp.noise e i))],
          stepsD := st.stepsD ++ [[errD_real_node sagan e i, errD_fake_node sagan e i]],
          stepsG := st.stepsG ++ [[errG_node sagan (Exp.applyG (Exp.noise e i))]],
          dForward := st.dForward ++ [Exp.realData e i,
            Exp.detach (Exp.applyG (Exp.noise e i)), Exp.applyG (Exp.noise e i)],
          gForward := st.gForward ++ [Exp.noise e i, Exp.fixedNoise],
          draws := st.draws ++ [Exp.noise e i],
          backwards := st.backwards ++ [errD_real_node sagan e i, errD_fake_node sagan e i,
            errG_node sagan (Exp.applyG (Exp.noise e i))],
          saves := st.saves ++ [realSaveEv outf e i, fakeSaveEv outf e],
          logLines := st.logLines ++ [⟨e, nit, i, nB,
            errD_realVal sagan rl sR + errD_fakeVal sagan fl sR.length s1,
            errGVal sagan rl sR.length s2,
            threshMean sR, threshMean s1, threshMean s2⟩],
          errD_real := errD_realVal sagan rl sR,
          errD_fake := errD_fakeVal sagan fl sR.length s1,
          errD := errD_realVal sagan rl sR + errD_fakeVal sagan fl sR.length s1,
          errG := errGVal sagan rl sR.length s2,
          D_x := threshMean sR, D_G_z1 := threshMean s1, D_G_z2 := threshMean s2,
          errD_real_nd := errD_real_node sagan e i,
          errD_fake_nd := errD_fake_node sagan e i,
          errD_nd := Exp.add (errD_real_node sagan e i) (errD_fake_node sagan e i),
          errG_nd := errG_node sagan (Exp.applyG (Exp.noise e i)),
          fake := Exp.applyG Exp.fixedNoise }
      else
        { st with
          label := List.replicate sR.length rl,
          gradD := [errD_real_node sagan e i, errD_fake_node sagan e i,
                    errG_node sagan (Exp.applyG (Exp.noise e i))],
          gradG := [errG_node sagan (Exp.applyG (Exp.noise e i))],
          stepsD := st.stepsD ++ [[errD_real_node sagan e i, errD_fake_node sagan e i]],
          stepsG := st.stepsG ++ [[errG_node sagan (Exp.applyG (Exp.noise e i))]],
          dForward := st.dForward ++ [Exp.realData e i,
            Exp.detach (Exp.applyG (Exp.noise e i)), Exp.applyG (Exp.noise e i)],
          gForward := st.gForward ++ [Exp.noise e i],
          draws := st.draws ++ [Exp.noise e i],
          backwards := st.backwards ++ [errD_real_node sagan e i, errD_fake_node sagan e i,
            errG_node sagan (Exp.applyG (Exp.noise e i))],
          logLines := st.logLines ++ [⟨e, nit, i, nB,
            errD_realVal sagan rl sR + errD_fakeVal sagan fl sR.length s1,
            errGVal sagan rl sR.length s2,
            threshMean sR, threshMean s1, threshMean s2⟩],
          errD_real := errD_realVal sagan rl sR,
          errD_fake := errD_fakeVal sagan fl sR.length s1,
          errD := errD_realVal sagan rl sR + errD_fakeVal sagan fl sR.length s1,
          errG := errGVal sagan rl sR.length s2,
          D_x := threshMean sR, D_G_z1 := threshMean s1, D_G_z2 := threshMean s2,
          errD_real_nd := errD_real_node sagan e i,
          errD_fake_nd := errD_fake_node sagan e i,
          errD_nd := Exp.add (errD_real_node sagan e i) (errD_fake_node sagan e i),
          errG_nd := errG_node sagan (Exp.applyG (Exp.noise e i)),
          fake := Exp.applyG (Exp.noise e i) }) := by
  rw [batchStep, discRealPhase_eq, discFakePhase_eq, discCommit_eq, genPhase_eq,
    logAndSnapshot_eq]
  by_cases h : i % 100 = 0 <;>
    simp [h, errG_node, touchesG, List.append_assoc]


theorem charVal_digitChar (d : Nat) (h : d < 10) :
    (Char.ofNat (48 + d)).toNat - 48 = d := by
  interval_cases d <;> decide

theorem ofDigits_replicate_zero (b k : Nat) :
    Nat.ofDigits b (List.replicate k 0) = 0 := by
  induction k with
  | zero => simp
  | succ n ih => simp [List.replicate_succ, Nat.ofDigits_cons, ih]

theorem decodeChars_replicate_zero (k : Nat) (cs : List Char) :
    decodeChars (List.replicate k '0' ++ cs) = decodeChars cs := by
  unfold decodeChars
  rw [List.map_append, List.map_replicate, List.reverse_append, List.reverse_replicate,
    Nat.ofDigits_append]
  have h0 : ('0'.toNat - 48) = 0 := by decide
  rw [h0, ofDigits_replicate_zero]
  simp

theorem decodeChars_decChars (n : Nat) : decodeChars (decChars n) = n := by
  unfold decodeChars decChars
  rw [List.map_map]
  have h : List.map ((fun c => c.toNat - 48) ∘ fun d => Char.ofNat (48 + d))
      (Nat.digits 10 n).reverse = List.map id (Nat.digits 10 n).reverse := by
    apply List.map_congr_left
    intro d hd
    have hd10 : d < 10 := Nat.digits_lt_base (by norm_num) (List.mem_reverse.mp hd)
    simpa using charVal_digitChar d hd10
  rw [h, List.map_id, List.reverse_reverse, Nat.ofDigits_digits]

theorem pad3Chars_injective (a b : Nat) (h : pad3Chars a = pad3Chars b) : a = b := by
  have ha : decodeChars (pad3Chars a) = decodeChars (pad3Chars b) := by rw [h]
  rwa [pad3Chars, pad3Chars, decodeChars_replicate_zero, decodeChars_replicate_zero,
    decodeChars_decChars, decodeChars_decChars] at ha

theorem string_data_append (s t : String) : (s ++ t).data = s.data ++ t.data := by
  cases s; cases t; rfl

theorem fake_samples_file_injective (outf : String) (a b : Nat)
    (h : fake_samples_file outf a = fake_samples_file outf b) : a = b := by
  apply pad3Chars_injective
  have hd := congrArg String.data h
  rw [fake_samples_file, fake_samples_file, string_data_append, string_data_append,
    string_data_append, string_data_append, string_data_append, string_data_append,
    List.append_assoc, List.append_assoc, List.append_assoc, List.append_assoc] at hd
  have h1 := List.append_cancel_left hd
  have h2 := List.append_cancel_left h1
  have h3 := List.append_cancel_right h2
  exact h3

theorem one_add_exp_pos (x : ℝ) : 0 < 1 + Real.exp x := by positivity

theorem log_sigmoid (x : ℝ) :
    Real.log (sigmoid x) = -Real.log (1 + Real.exp (-x)) := by
  rw [sigmoid, one_div, Real.log_inv]

theorem one_sub_sigmoid (x : ℝ) :
    1 - sigmoid x = Real.exp (-x) / (1 + Real.exp (-x)) := by
  have h := (one_add_exp_pos (-x)).ne'
  rw [sigmoid]
  field_simp

theorem log_one_sub_sigmoid (x : ℝ) :
    Real.log (1 - sigmoid x) = -x - Real.log (1 + Real.exp (-x)) := by
  rw [one_sub_sigmoid, Real.log_div (Real.exp_ne_zero (-x)) (one_add_exp_pos (-x)).ne',
    Real.log_exp]

theorem log_one_add_exp (x : ℝ) :
    Real.log (1 + Real.exp x) = x + Real.log (1 + Real.exp (-x)) := by
  have h : (1 : ℝ) + Real.exp x = Real.exp x * (1 + Real.exp (-x)) := by
    rw [mul_add, mul_one, ← Real.exp_add]
    simp [add_comm]
  rw [h, Real.log_mul (Real.exp_ne_zero x) (one_add_exp_pos (-x)).ne', Real.log_exp]

theorem bceWithLogitsTerm_eq_bceSpec (x y : ℝ) :
    bceWithLogitsTerm x y = bceSpec x y := by
  rw [bceSpec, log_sigmoid, log_one_sub_sigmoid, bceWithLogitsTerm]
  rcases le_or_lt 0 x with hx | hx
  · rw [abs_of_nonneg hx, max_eq_left hx]
    ring
  · rw [abs_of_neg hx, max_eq_right hx.le, neg_neg, log_one_add_exp x]
    ring

theorem bceWithLogitsTerm_one (s : ℝ) :
    bceWithLogitsTerm s 1 = Real.log (1 + Real.exp (-s)) := by
  rw [bceWithLogitsTerm_eq_bceSpec, bceSpec, log_sigmoid]
  ring

theorem bce_one_strictAnti (s t : ℝ) (h : s < t) :
    bceWithLogitsTerm t 1 < bceWithLogitsTerm s 1 := by
  rw [bceWithLogitsTerm_one, bceWithLogitsTerm_one]
  apply Real.log_lt_log (one_add_exp_pos (-t))
  have := Real.exp_lt_exp.mpr (neg_lt_neg h)
  linarith

theorem zipWith_replicate_len {α β γ : Type} (f : α → β → γ) (y : β) (l : List α) :
    List.zipWith f l (List.replicate l.length y) = l.map fun s => f s y := by
  induction l with
  | nil => rfl
  | cons a as ih => simp [List.replicate_succ, ih]

theorem criterion_replicate (scores : List ℝ) (y : ℝ) :
    criterion scores (List.replicate scores.length y) = specBCELoss scores y := by
  rw [criterion, specBCELoss, zipWith_replicate_len]
  have h : (scores.map fun s => bceWithLogitsTerm s y) = scores.map fun s => bceSpec s y :=
    List.map_congr_left fun s _ => bceWithLogitsTerm_eq_bceSpec s y
  rw [h]

theorem batchStep_draws (sagan : Bool) (rl fl : ℝ) (e i nit nB : Nat) (outf : String)
    (sR s1 s2 : List ℝ) (st : GanState) :
    (batchStep sagan rl fl e i nit nB outf sR s1 s2 st).draws = st.draws ++ [Exp.noise e i] := by
  rw [batchStep_eq]
  by_cases h : i % 100 = 0 <;> simp [h]

theorem batchStep_saves (sagan : Bool) (rl fl : ℝ) (e i nit nB : Nat) (outf : String)
    (sR s1 s2 : List ℝ) (st : GanState) :
    (batchStep sagan rl fl e i nit nB outf sR s1 s2 st).saves =
      st.saves ++ (if i % 100 = 0 then [realSaveEv outf e i, fakeSaveEv outf e] else []) := by
  rw [batchStep_eq]
  by_cases h : i % 100 = 0 <;> simp [h]

theorem foldl_batch_draws (sagan : Bool) (rl fl : ℝ) (nit nB : Nat) (outf : String)
    (o : Nat → Nat → List ℝ × List ℝ × List ℝ) (e : Nat) (l : List Nat) (st : GanState) :
    (l.foldl (fun s i => batchStep sagan rl fl e i nit nB outf
        (o e i).1 (o e i).2.1 (o e i).2.2 s) st).draws = st.draws ++ l.map (Exp.noise e) := by
  induction l generalizing st with
  | nil => simp
  | cons a as ih => simp [List.foldl_cons, ih, batchStep_draws, List.append_assoc]

theorem foldl_batch_saves (sagan : Bool) (rl fl : ℝ) (nit nB : Nat) (outf : String)
    (o : Nat → Nat → List ℝ × List ℝ × List ℝ) (e : Nat) (l : List Nat) (st : GanState) :
    (l.foldl (fun s i => batchStep sagan rl fl e i nit nB outf
        (o e i).1 (o e i).2.1 (o e i).2.2 s) st).saves = st.saves ++ snapSaves outf e l := by
  induction l generalizing st with
  | nil => simp [snapSaves]
  | cons a as ih => simp [List.foldl_cons, ih, batchStep_saves, snapSaves, List.append_assoc]

theorem epochStep_draws (sagan : Bool) (rl fl : ℝ) (nit nB : Nat) (outf : String)
    (o : Nat → Nat → List ℝ × List ℝ × List ℝ) (e : Nat) (st : GanState) :
    (epochStep sagan rl fl nit nB outf o e st).draws =
      st.draws ++ (List.range nB).map (Exp.noise e) :=
  foldl_batch_draws sagan rl fl nit nB outf o e (List.range nB) st

theorem epochStep_saves (sagan : Bool) (rl fl : ℝ) (nit nB : Nat) (outf : String)
    (o : Nat → Nat → List ℝ × List ℝ × List ℝ) (e : Nat) (st : GanState) :
    (epochStep sagan rl fl nit nB outf o e st).saves =
      st.saves ++ snapSaves outf e (List.range nB) :=
  foldl_batch_saves sagan rl fl nit nB outf o e (List.range nB) st

theorem foldl_epoch_saves (sagan : Bool) (rl fl : ℝ) (nit nB : Nat) (outf : String)
    (o : Nat → Nat → List ℝ × List ℝ × List ℝ) (es : List Nat) (st : GanState) :
    ((es.foldl (fun s e => epochStep sagan rl fl nit nB outf o e s) st).saves) =
      st.saves ++ runSaves outf nB es := by
  induction es generalizing st with
  | nil => simp [runSaves]
  | cons a as ih => simp [List.foldl_cons, ih, epochStep_saves, runSaves, List.append_assoc]

theorem runLoop_saves (sagan : Bool) (rl fl : ℝ) (nit nB : Nat) (outf : String)
    (o : Nat → Nat → List ℝ × List ℝ × List ℝ) :
    (runLoop sagan rl fl nit nB outf o).saves = runSaves outf nB (List.range nit) := by
  rw [runLoop, foldl_epoch_saves]
  rfl

theorem foldl_epoch_draws_count (sagan : Bool) (rl fl : ℝ) (nit nB : Nat) (outf : String)
    (o : Nat → Nat → List ℝ × List ℝ × List ℝ) (es : List Nat) (st : GanState) :
    ((es.foldl (fun s e => epochStep sagan rl fl nit nB outf o e s) st).draws).count
        Exp.fixedNoise = st.draws.count Exp.fixedNoise := by
  induction es generalizing st with
  | nil => rfl
  | cons a as ih =>
      rw [List.foldl_cons, ih, epochStep_draws, List.count_append]
      have h : (((List.range nB).map (Exp.noise a)).count Exp.fixedNoise) = 0 := by
        rw [List.count_eq_zero]
        intro hmem
        rcases List.mem_map.mp hmem with ⟨x, _, hx⟩
        exact Exp.noConfusion hx
      rw [h]
      omega

theorem runLoop_draws_count (sagan : Bool) (rl fl : ℝ) (nit nB : Nat) (outf : String)
    (o : Nat → Nat → List ℝ × List ℝ × List ℝ) :
    ((runLoop sagan rl fl nit nB outf o).draws).count Exp.fixedNoise = 1 := by
  rw [runLoop, foldl_epoch_draws_count]
  rfl

theorem snapSaves_fake_src (outf : String) (e : Nat) (l : List Nat) :
    ∀ ev ∈ snapSaves outf e l, ev.kind = SaveKind.fakeGrid →
      ev.src = Exp.detach (Exp.applyG Exp.fixedNoise) := by
  induction l with
  | nil => intro ev h; simp [snapSaves] at h
  | cons a as ih =>
      intro ev h hk
      rw [snapSaves] at h
      rcases List.mem_append.mp h with h1 | h2
      · by_cases ha : a % 100 = 0
        · rw [if_pos ha] at h1
          simp only [List.mem_cons, List.not_mem_nil, or_false] at h1
          rcases h1 with h1 | h1
          · rw [h1] at hk; exact absurd hk (by simp [realSaveEv])
          · rw [h1]; rfl
        · rw [if_neg ha] at h1
          exact absurd h1 (List.not_mem_nil ev)
      · exact ih ev h2 hk

theorem runSaves_fake_src (outf : String) (nB : Nat) (es : List Nat) :
    ∀ ev ∈ runSaves outf nB es, ev.kind = SaveKind.fakeGrid →
      ev.src = Exp.detach (Exp.applyG Exp.fixedNoise) := by
  induction es with
  | nil => intro ev h; simp [runSaves] at h
  | cons a as ih =>
      intro ev h hk
      rw [runSaves] at h
      rcases List.mem_append.mp h with h1 | h2
      · exact snapSaves_fake_src outf a (List.range nB) ev h1 hk
      · exact ih ev h2 hk

theorem pad3_zero : pad3 0 = "000" := by
  rw [pad3, pad3Chars, decChars]
  simp

theorem fake_file_o_zero : fake_samples_file "o" 0 = "o/fake_samples_epoch_000.png" := by
  rw [fake_samples_file, pad3_zero]
  decide

theorem snapSaves_files (outf : String) (e : Nat) (l : List Nat) :
    (snapSaves outf e l).map SaveEvent.file =
      l.foldr (fun i acc => if i % 100 = 0
        then real_samples_file outf :: fake_samples_file outf e :: acc else acc) [] := by
  induction l with
  | nil => rfl
  | cons a as ih =>
      rw [snapSaves, List.foldr_cons]
      by_cases ha : a % 100 = 0 <;> simp [ha, ih, realSaveEv, fakeSaveEv]

theorem run_1_101_files :
    ((runLoop false real_label fake_label 1 101 "o" orcZero).saves.map SaveEvent.file) =
      ["o/real_samples.png", "o/fake_samples_epoch_000.png",
       "o/real_samples.png", "o/fake_samples_epoch_000.png"] := by
  rw [runLoop_saves]
  have h : List.range 1 = [0] := by decide
  rw [h, runSaves, runSaves, List.append_nil, snapSaves_files, fake_file_o_zero]
  have h2 : real_samples_file "o" = "o/real_samples.png" := rfl
  rw [h2]
  decide

theorem observables_label_indep (rl fl rl' fl' : ℝ) (L L' : List ℝ)
    (e i nit nB : Nat) (outf : String) (sR s1 s2 : List ℝ) (st : GanState) :
    observables (batchStep true rl fl e i nit nB outf sR s1 s2 { st with label := L }) =
      observables (batchStep true rl' fl' e i nit nB outf sR s1 s2 { st with label := L' }) := by
  rw [batchStep_eq, batchStep_eq]
  by_cases h : i % 100 = 0 <;>
    simp [h, observables, errD_realVal, errD_fakeVal, errGVal]

theorem hinge_errD_real_singleton (s : ℝ) : hinge_errD_real [s] = relu (1 - s) := by
  simp [hinge_errD_real, mean]

theorem criterion_singleton_one (t : ℝ) : criterion [t] [real_label] = bceWithLogitsTerm t 1 := by
  simp [criterion, mean, real_label]

/-- C1: gradient isolation in the discriminator's fake phase — the phase's
backward pass (on the detached fake batch) leaves the generator's gradient
buffer unchanged, even though the backward call itself is recorded. -/
theorem claim_C1_fake_phase_gradient_isolation (sagan : Bool) (fl : ℝ)
    (epoch i : Nat) (sFake1 : List ℝ) (st : GanState) :
    (discFakePhase sagan fl epoch i sFake1 st).gradG = st.gradG ∧
    (discFakePhase sagan fl epoch i sFake1 st).backwards =
      st.backwards ++ [errD_fake_node sagan epoch i] := by
  rw [discFakePhase_eq]
  exact ⟨rfl, rfl⟩

/-- C2: within one batch the same generator output `netG(noise epoch i)` is
scored twice through the discriminator — once detached, once attached — so
the batch's discriminator forward passes are exactly real, detached fake,
attached fake; exactly one noise tensor is drawn, and the generator phase
draws none. -/
theorem claim_C2_same_fake_scored_twice (sagan : Bool) (rl fl : ℝ)
    (epoch i nit nB : Nat) (outf : String) (sR s1 s2 : List ℝ) (st : GanState) :
    (batchStep sagan rl fl epoch i nit nB outf sR s1 s2 st).dForward =
      st.dForward ++ [Exp.realData epoch i,
        Exp.detach (Exp.applyG (Exp.noise epoch i)), Exp.applyG (Exp.noise epoch i)] ∧
    (batchStep sagan rl fl epoch i nit nB outf sR s1 s2 st).draws =
      st.draws ++ [Exp.noise epoch i] ∧
    ∀ st2 : GanState, (genPhase sagan rl s2 st2).draws = st2.draws := by
  refine ⟨?_, ?_, ?_⟩
  · rw [batchStep_eq]; by_cases h : i % 100 = 0 <;> simp [h]
  · rw [batchStep_eq]; by_cases h : i % 100 = 0 <;> simp [h]
  · intro st2; rw [genPhase_eq]

/-- C3: the discriminator gradient buffer is cleared exactly once, at the
start of the real phase; real and fake backward passes accumulate onto the
same buffer; the single optimizer step of the batch consumes the summed
gradient `[errD_real, errD_fake]`; the reported `errD` equals
`errD_real + errD_fake`, is logged, and is never itself differentiated. -/
theorem claim_C3_discriminator_accumulation_and_commit (sagan : Bool) (rl fl : ℝ)
    (epoch i nit nB : Nat) (outf : String) (sR s1 s2 : List ℝ) (st : GanState) :
    (discRealPhase sagan rl epoch i sR st).gradD = [errD_real_node sagan epoch i] ∧
    (∀ st2 : GanState, (discFakePhase sagan fl epoch i s1 st2).gradD =
      st2.gradD ++ [errD_fake_node sagan epoch i]) ∧
    (batchStep sagan rl fl epoch i nit nB outf sR s1 s2 st).stepsD =
      st.stepsD ++ [[errD_real_node sagan epoch i, errD_fake_node sagan epoch i]] ∧
    (batchStep sagan rl fl epoch i nit nB outf sR s1 s2 st).errD =
      errD_realVal sagan rl sR + errD_fakeVal sagan fl sR.length s1 ∧
    (batchStep sagan rl fl epoch i nit nB outf sR s1 s2 st).backwards =
      st.backwards ++ [errD_real_node sagan epoch i, errD_fake_node sagan epoch i,
        errG_node sagan (Exp.applyG (Exp.noise epoch i))] ∧
    (batchStep sagan rl fl epoch i nit nB outf sR s1 s2 st).errD_nd =
      Exp.add (errD_real_node sagan epoch i) (errD_fake_node sagan epoch i) ∧
    Exp.add (errD_real_node sagan epoch i) (errD_fake_node sagan epoch i) ∉
      [errD_real_node sagan epoch i, errD_fake_node sagan epoch i,
        errG_node sagan (Exp.applyG (Exp.noise epoch i))] ∧
    (batchStep sagan rl fl epoch i nit nB outf sR s1 s2 st).logLines =
      st.logLines ++ [⟨epoch, nit, i, nB,
        errD_realVal sagan rl sR + errD_fakeVal sagan fl sR.length s1,
        errGVal sagan rl sR.length s2,
        threshMean sR, threshMean s1, threshMean s2⟩] := by
  refine ⟨?_, ?_, ?_, ?_, ?_, ?_, ?_, ?_⟩
  · rw [discRealPhase_eq]
  · intro st2; rw [discFakePhase_eq]
  · rw [batchStep_eq]; by_cases h : i % 100 = 0 <;> simp [h]
  · rw [batchStep_eq]; by_cases h : i % 100 = 0 <;> simp [h]
  · rw [batchStep_eq]; by_cases h : i % 100 = 0 <;> simp [h]
  · rw [batchStep_eq]; by_cases h : i % 100 = 0 <;> simp [h]
  · cases sagan <;> simp [errD_real_node, errD_fake_node, errG_node]
  · rw [batchStep_eq]; by_cases h : i % 100 = 0 <;> simp [h]

/-- C4: the generator phase takes no discriminator optimizer step; the
generator-loss backward pass does flow a gradient into the discriminator's
buffer (it is the third entry of the batch's final `gradD`), but the batch's
only discriminator step consumed just the real and fake contributions; the
phase takes exactly one generator step. -/
theorem claim_C4_no_discriminator_update_in_generator_phase (sagan : Bool)
    (rl fl : ℝ) (epoch i nit nB : Nat) (outf : String) (sR s1 s2 : List ℝ)
    (st : GanState) :
    (batchStep sagan rl fl epoch i nit nB outf sR s1 s2 st).gradD =
      [errD_real_node sagan epoch i, errD_fake_node sagan epoch i,
       errG_node sagan (Exp.applyG (Exp.noise epoch i))] ∧
    (batchStep sagan rl fl epoch i nit nB outf sR s1 s2 st).stepsD =
      st.stepsD ++ [[errD_real_node sagan epoch i, errD_fake_node sagan epoch i]] ∧
    (batchStep sagan rl fl epoch i nit nB outf sR s1 s2 st).stepsG =
      st.stepsG ++ [[errG_node sagan (Exp.applyG (Exp.noise epoch i))]] ∧
    ∀ st2 : GanState, (genPhase sagan rl s2 st2).stepsD = st2.stepsD := by
  refine ⟨?_, ?_, ?_, ?_⟩
  · rw [batchStep_eq]; by_cases h : i % 100 = 0 <;> simp [h]
  · rw [batchStep_eq]; by_cases h : i % 100 = 0 <;> simp [h]
  · rw [batchStep_eq]; by_cases h : i % 100 = 0 <;> simp [h]
  · intro st2; rw [genPhase_eq]

/-- C5: in the hinge (sagan) variant the batch's discriminator real loss is
`mean(relu(1 − D(real)))`, its fake loss is `mean(relu(1 + D(fake_detached)))`
and its generator loss is `−mean(D(fake))`. -/
theorem claim_C5_hinge_losses (rl fl : ℝ) (epoch i nit nB : Nat) (outf : String)
    (sR s1 s2 : List ℝ) (st : GanState) :
    (batchStep true rl fl epoch i nit nB outf sR s1 s2 st).errD_real =
      specHingeRealLoss sR ∧
    (batchStep true rl fl epoch i nit nB outf sR s1 s2 st).errD_fake =
      specHingeFakeLoss s1 ∧
    (batchStep true rl fl epoch i nit nB outf sR s1 s2 st).errG =
      specHingeGenLoss s2 := by
  rw [batchStep_eq]
  by_cases h : i % 100 = 0 <;>
    simp [h, errD_realVal, errD_fakeVal, errGVal, specHingeRealLoss, specHingeFakeLoss,
      specHingeGenLoss, hinge_errD_real, hinge_errD_fake]

/-- C6: in the cross-entropy variant the batch's losses are binary cross
entropy of raw (pre-sigmoid) scores against targets 1 (real), 0 (detached
fake) and 1 (generator), and the loop's numerically stable
`BCEWithLogitsLoss` computation agrees exactly with the textbook
sigmoid-based BCE. -/
theorem claim_C6_bce_losses (epoch i nit nB : Nat) (outf : String)
    (sR s1 s2 : List ℝ) (st : GanState)
    (h1 : s1.length = sR.length) (h2 : s2.length = sR.length) :
    (batchStep false real_label fake_label epoch i nit nB outf sR s1 s2 st).errD_real =
      specBCELoss sR 1 ∧
    (batchStep false real_label fake_label epoch i nit nB outf sR s1 s2 st).errD_fake =
      specBCELoss s1 0 ∧
    (batchStep false real_label fake_label epoch i nit nB outf sR s1 s2 st).errG =
      specBCELoss s2 1 := by
  have e1 : (batchStep false real_label fake_label epoch i nit nB outf sR s1 s2 st).errD_real
      = criterion sR (List.replicate sR.length real_label) := by
    rw [batchStep_eq]; by_cases h : i % 100 = 0 <;> simp [h, errD_realVal]
  have e2 : (batchStep false real_label fake_label epoch i nit nB outf sR s1 s2 st).errD_fake
      = criterion s1 (List.replicate sR.length fake_label) := by
    rw [batchStep_eq]; by_cases h : i % 100 = 0 <;> simp [h, errD_fakeVal]
  have e3 : (batchStep false real_label fake_label epoch i nit nB outf sR s1 s2 st).errG
      = criterion s2 (List.replicate sR.length real_label) := by
    rw [batchStep_eq]; by_cases h : i % 100 = 0 <;> simp [h, errGVal]
  refine ⟨?_, ?_, ?_⟩
  · rw [e1, real_label, criterion_replicate]
  · rw [e2, fake_label, ← h1, criterion_replicate]
  · rw [e3, real_label, ← h2, criterion_replicate]

/-- C6 witness: the cross-entropy claim instantiated on a concrete
one-sample batch. -/
theorem claim_C6_bce_losses_witness :
    (batchStep false real_label fake_label 0 0 1 1 "o" [0] [0] [0] initState).errD_real =
      specBCELoss [0] 1 ∧
    (batchStep false real_label fake_label 0 0 1 1 "o" [0] [0] [0] initState).errD_fake =
      specBCELoss [0] 0 ∧
    (batchStep false real_label fake_label 0 0 1 1 "o" [0] [0] [0] initState).errG =
      specBCELoss [0] 1 :=
  claim_C6_bce_losses 0 0 1 1 "o" [0] [0] [0] initState rfl rfl

/-- C7 counterexample: in a single-epoch run with 101 batches, batches 0 and
100 both trigger the snapshot branch, and the four resulting
`save_image` calls use only two distinct filenames — the real grid always
goes to `real_samples.png` and both fake grids of the epoch go to
`fake_samples_epoch_000.png` — so snapshot saves in the same run do
overwrite each other, contradicting the claim that files are keyed by
epoch/batch and never collide. -/
theorem claim_C7_counterexample :
    ((runLoop false real_label fake_label 1 101 "o" orcZero).saves.map SaveEvent.file) =
      ["o/real_samples.png", "o/fake_samples_epoch_000.png",
       "o/real_samples.png", "o/fake_samples_epoch_000.png"] ∧
    ¬ ((runLoop false real_label fake_label 1 101 "o" orcZero).saves.map
        SaveEvent.file).Nodup := by
  refine ⟨run_1_101_files, ?_⟩
  rw [run_1_101_files]
  decide

/-- C7 (amended): every 100 batches (indices with `i % 100 = 0`, including
`i = 0`) the loop saves a normalized grid of the first 64 real images of the
current batch and a normalized grid of generator outputs from the fixed
noise vector; the fake-grid file is keyed by epoch only (distinct epochs
give distinct names) and the real-grid file is one fixed name, so snapshots
within a run reuse filenames rather than being keyed by epoch/batch. -/
theorem claim_C7_amended_snapshots (sagan : Bool) (rl fl : ℝ)
    (epoch i nit nB : Nat) (outf : String) (sR s1 s2 : List ℝ) (st : GanState) :
    (batchStep sagan rl fl epoch i nit nB outf sR s1 s2 st).saves =
      st.saves ++ (if i % 100 = 0
        then [realSaveEv outf epoch i, fakeSaveEv outf epoch] else []) ∧
    realSaveEv outf epoch i =
      ⟨real_samples_file outf, Exp.slice 64 (Exp.realData epoch i), true,
        SaveKind.realGrid⟩ ∧
    fakeSaveEv outf epoch =
      ⟨fake_samples_file outf epoch, Exp.detach (Exp.applyG Exp.fixedNoise), true,
        SaveKind.fakeGrid⟩ ∧
    (∀ a b : Nat, fake_samples_file outf a = fake_samples_file outf b → a = b) ∧
    (∀ e2 i2 : Nat, (realSaveEv outf e2 i2).file = (realSaveEv outf epoch i).file) := by
  refine ⟨batchStep_saves sagan rl fl epoch i nit nB outf sR s1 s2 st, rfl, rfl,
    fun a b h => fake_samples_file_injective outf a b h, fun e2 i2 => rfl⟩

/-- C7 amended witness: the snapshot characterization on a concrete
triggering batch, and filename-injectivity instantiated. -/
theorem claim_C7_amended_snapshots_witness :
    (batchStep false real_label fake_label 0 0 1 1 "o" [] [] [] initState).saves =
      initState.saves ++ (if 0 % 100 = 0
        then [realSaveEv "o" 0 0, fakeSaveEv "o" 0] else []) ∧
    (0 : Nat) = 0 :=
  ⟨(claim_C7_amended_snapshots false real_label fake_label 0 0 1 1 "o" [] [] []
      initState).1,
   (claim_C7_amended_snapshots false real_label fake_label 0 0 1 1 "o" [] [] []
      initState).2.2.2.1 0 0 rfl⟩

/-- C8: in the hinge (sagan) variant the label tensor is write-only — two
batch steps that differ only in the label constants and the incoming label
tensor contents produce identical observables (losses, gradients, optimizer
steps, traces, artifacts, log lines). -/
theorem claim_C8_labels_unused_in_sagan (rl fl rl' fl' : ℝ) (L L' : List ℝ)
    (epoch i nit nB : Nat) (outf : String) (sR s1 s2 : List ℝ) (st : GanState) :
    observables (batchStep true rl fl epoch i nit nB outf sR s1 s2
        { st with label := L }) =
      observables (batchStep true rl' fl' epoch i nit nB outf sR s1 s2
        { st with label := L' }) := by
  rw [batchStep_eq, batchStep_eq]
  by_cases h : i % 100 = 0 <;>
    simp [h, observables, errD_realVal, errD_fakeVal, errGVal]

/-- C9: the fixed noise vector is drawn exactly once, before the loop
starts; it is never drawn again in any run, and every fake-grid snapshot in
every epoch is produced by applying the generator to that same vector. -/
theorem claim_C9_fixed_noise_drawn_once (sagan : Bool) (rl fl : ℝ)
    (nit nB : Nat) (outf : String) (o : Nat → Nat → List ℝ × List ℝ × List ℝ) :
    initState.draws = [Exp.fixedNoise] ∧
    ((runLoop sagan rl fl nit nB outf o).draws).count Exp.fixedNoise = 1 ∧
    ∀ ev ∈ (runLoop sagan rl fl nit nB outf o).saves,
      ev.kind = SaveKind.fakeGrid →
        ev.src = Exp.detach (Exp.applyG Exp.fixedNoise) := by
  refine ⟨rfl, runLoop_draws_count sagan rl fl nit nB outf o, ?_⟩
  rw [runLoop_saves]
  exact runSaves_fake_src outf nB (List.range nit)

/-- C9 witness: the fixed-noise claims instantiated on a concrete
one-epoch, one-batch run, whose snapshot save is exhibited. -/
theorem claim_C9_fixed_noise_drawn_once_witness :
    ((runLoop false real_label fake_label 1 1 "o" orcZero).draws).count
        Exp.fixedNoise = 1 ∧
    (fakeSaveEv "o" 0).src = Exp.detach (Exp.applyG Exp.fixedNoise) := by
  refine ⟨(claim_C9_fixed_noise_drawn_once false real_label fake_label 1 1 "o"
      orcZero).2.1, ?_⟩
  refine (claim_C9_fixed_noise_drawn_once false real_label fake_label 1 1 "o"
      orcZero).2.2 (fakeSaveEv "o" 0) ?_ rfl
  rw [runLoop_saves]
  have h : List.range 1 = [0] := by decide
  rw [h]
  simp [runSaves, snapSaves]

/-- C10: the hinge real loss is monotonically non-increasing in the score
and vanishes for scores at least 1; the cross-entropy (logits) real loss is
strictly decreasing in the raw score. -/
theorem claim_C10_real_loss_monotonicity (s t : ℝ) :
    (s ≤ t → hinge_errD_real [t] ≤ hinge_errD_real [s]) ∧
    (1 ≤ s → hinge_errD_real [s] = 0) ∧
    (s < t → criterion [t] [real_label] < criterion [s] [real_label]) := by
  refine ⟨?_, ?_, ?_⟩
  · intro h
    rw [hinge_errD_real_singleton, hinge_errD_real_singleton, relu, relu]
    exact max_le_max (le_refl 0) (by linarith)
  · intro h
    rw [hinge_errD_real_singleton, relu]
    exact max_eq_left (by linarith)
  · intro h
    rw [criterion_singleton_one, criterion_singleton_one]
    exact bce_one_strictAnti s t h

/-- C10 witness: monotonicity, saturation and strict decrease at concrete
scores. -/
theorem claim_C10_real_loss_monotonicity_witness :
    (hinge_errD_real [(1 : ℝ)] ≤ hinge_errD_real [0]) ∧
    (hinge_errD_real [(2 : ℝ)] = 0) ∧
    (criterion [(1 : ℝ)] [real_label] < criterion [0] [real_label]) :=
  ⟨(claim_C10_real_loss_monotonicity 0 1).1 (by norm_num),
   (claim_C10_real_loss_monotonicity 2 0).2.1 (by norm_num),
   (claim_C10_real_loss_monotonicity 0 1).2.2 (by norm_num)⟩
